import Mathlib

/-!
Verification of the ASN label generator (gen-asn.py).

The script parses range-configuration strings of the form year:first:last,
expands them into a flat list of (year, serial) pairs, derives per-label
display values (zero-padded id, composite code, leading-zero filler, color)
and hands each pair to an external PDF renderer.  The PDF, QR and font
machinery is out of scope; the embedding below covers the range parser
(parse_cfg), the expansion loop of main, the value deriver (values) and
the output-filename resolution of main.
-/

namespace GenAsn

/-- The fixed 8-entry color palette (module-level constant colors). -/
def colors : List String :=
  ["#fc990f", "#cec323", "#53adfc", "#b53834",
   "#4fce46", "#6374e2", "#55d1ac", "#ff0090"]

/-- Sheet configuration constant ROWS = 16. -/
def ROWS : Int := 16

/-- Sheet configuration constant COLS = 5. -/
def COLS : Int := 5

/-- Sheet configuration constant CELLS = ROWS*COLS. -/
def CELLS : Int := ROWS * COLS

/-- Model of Python str.split with the one-character separator used by the
script (cfg.split with separator colon).  Splitting the empty string yields
one empty field; every separator occurrence starts a new field. -/
def splitOnChar (sep : Char) : List Char → List (List Char)
  | [] => [[]]
  | c :: cs =>
    let r := splitOnChar sep cs
    if c = sep then [] :: r
    else
      match r with
      | [] => [[c]]
      | g :: gs => (c :: g) :: gs

/-- Value of a decimal digit character, none for any other character. -/
def digitVal (c : Char) : Option Nat :=
  if '0' ≤ c ∧ c ≤ '9' then some (c.toNat - '0'.toNat) else none

/-- Accumulating decimal evaluation of a digit list; none on the first
non-digit character. -/
def parseDigitsAux (acc : Nat) : List Char → Option Nat
  | [] => some acc
  | c :: cs =>
    match digitVal c with
    | some d => parseDigitsAux (acc * 10 + d) cs
    | none => none

/-- Nonempty all-digit character list evaluated as a decimal number. -/
def parseDigits : List Char → Option Nat
  | [] => none
  | c :: cs => parseDigitsAux 0 (c :: cs)

/-- Model of the Python built-in int on a string: an optional sign followed
by a nonempty digit sequence; none models the ValueError int raises on any
other text.  (Python also tolerates surrounding whitespace and underscore
digit separators; those forms never occur in range specs and are omitted.) -/
def pyIntChars (s : List Char) : Option Int :=
  match s with
  | '-' :: rest => (parseDigits rest).map (fun n => -(n : Int))
  | '+' :: rest => (parseDigits rest).map (fun n => (n : Int))
  | l => (parseDigits l).map (fun n => (n : Int))

/-- One of the first two fields of a config: the Python conditional
int(part) if part else default, with the empty field falsy. -/
def pyFieldInt (p : List Char) (dflt : Int) : Option Int :=
  if p = [] then some dflt else pyIntChars p

/-- The last-field resolution of parse_cfg: empty means one full sheet
(first + ROWS*COLS - 1), a leading x means ROWS * n labels
(first + ROWS * int(rest) - 1), anything else is the explicit last. -/
def resolveLast (first : Int) (p2 : List Char) : Option Int :=
  if p2 = [] then some (first + ROWS * COLS - 1)
  else if p2.head? = some 'x' then
    (pyIntChars (p2.drop 1)).map (fun n => first + ROWS * n - 1)
  else pyIntChars p2

/-- parse_cfg: split the config on the colon; any field count other than 3
prints a diagnostic and returns (0, 0, 0); otherwise the three fields are
resolved to (year, first, last).  The Bool records whether the diagnostic
was printed; none models an uncaught ValueError from int, which terminates
the process. -/
def parse_cfg (cfg : String) : Option (Bool × Int × Int × Int) :=
  match splitOnChar ':' cfg.data with
  | [p0, p1, p2] => do
    let year ← pyFieldInt p0 0
    let first ← pyFieldInt p1 1
    let last ← resolveLast first p2
    some (false, year, first, last)
  | _ => some (true, 0, 0, 0)

/-- Model of the Python built-in range(a, b) as the list a, a+1, ..., b-1
(empty when b ≤ a). -/
def pyRange (a b : Int) : List Int :=
  (List.range (b - a).toNat).map (fun i => a + Int.ofNat i)

/-- The items one parsed config contributes in main:
[[year, x] for x in range(first, last+1)]. -/
def rangeItems (year first last : Int) : List (Int × Int) :=
  (pyRange first (last + 1)).map (fun x => (year, x))

/-- The items one config string contributes to data; none models the
process terminating on an uncaught ValueError. -/
def cfgItems (cfg : String) : Option (List (Int × Int)) :=
  (parse_cfg cfg).map (fun r => rangeItems r.2.1 r.2.2.1 r.2.2.2)

/-- The expansion loop of main over the positional cfg arguments, in
order, concatenating the items of each config; none models the process
terminating on the first uncaught ValueError. -/
def buildData : List String → Option (List (Int × Int))
  | [] => some []
  | cfg :: rest => do
    let items ← cfgItems cfg
    let d ← buildData rest
    some (items ++ d)

/-- The character of a decimal digit value. -/
def digitChar (d : Nat) : Char := Char.ofNat ('0'.toNat + d)

/-- Decimal digits of n, most significant first, accumulated with explicit
fuel (fuel n+1 always suffices since n shrinks by division by 10). -/
def natDigitsAux : Nat → Nat → List Char → List Char
  | 0, _, acc => acc
  | fuel + 1, n, acc =>
    if n = 0 then acc
    else natDigitsAux fuel (n / 10) (digitChar (n % 10) :: acc)

/-- Decimal digit characters of a natural number (the digits a Python
d-format emits for a non-negative integer). -/
def natToChars (n : Nat) : List Char :=
  if n = 0 then ['0'] else natDigitsAux (n + 1) n []

/-- Python zero-padded decimal formatting of a non-negative integer to a
minimum width, as in the 04d and 02d format specs of values. -/
def padZeroFmt (width n : Nat) : List Char :=
  List.replicate (width - (natToChars n).length) '0' ++ natToChars n

/-- Iterative computation of the least k with m ≤ 10 ^ k; the fuel
argument returns the current k when exhausted, and fuel m+1 always
suffices since m ≤ 10 ^ m. -/
def clog10Aux : Nat → Nat → Nat → Nat
  | 0, _, k => k
  | fuel + 1, m, k => if m ≤ 10 ^ k then k else clog10Aux fuel m (k + 1)

/-- math.ceil(math.log(m, 10)) for a positive integer m: the least k with
m ≤ 10 ^ k (0 for m ≤ 1).  The float computation of the script agrees
with this exact value on every argument it is applied to. -/
def ceilLog10 (m : Nat) : Nat := clog10Aux (m + 1) m 0

/-- values(year, sn): the four derived display fields
(id4, asn, zero4, fg_color).  Negative inputs are undefined behavior of
the script (math.log raises), so the embedding takes naturals. -/
def values (year sn : Nat) : String × String × String × String :=
  let id4 := String.mk (padZeroFmt 4 sn)
  let asn := String.mk ('A' :: 'S' :: 'N' :: (padZeroFmt 2 year ++ padZeroFmt 4 sn))
  let zero4 := String.mk (List.replicate (4 - ceilLog10 (sn + 1)) '0')
  let fg_color := colors.getD (year % colors.length) ""
  (id4, asn, zero4, fg_color)

/-- The formula the spec gives for the zeroFill length, in the words of the spec:
a string of max(0, 4 - ceil(log10(serial + 1))) zero characters. -/
def specZeroFillLen (sn : Nat) : Int :=
  max 0 (4 - (ceilLog10 (sn + 1) : Int))

/-- The output-filename resolution of main: a .pdf extension is appended
unless the given name already ends in .pdf. -/
def output_pdf (output : String) : String :=
  if ¬ (List.isSuffixOf ".pdf".data output.data) then output ++ ".pdf" else output

lemma clog10Aux_ge (fuel : Nat) : ∀ m k, k ≤ clog10Aux fuel m k := by
  induction fuel with
  | zero => intro m k; simp [clog10Aux]
  | succ fuel ih =>
    intro m k
    simp only [clog10Aux]
    split
    · exact Nat.le_refl k
    · exact Nat.le_trans (Nat.le_succ k) (ih m (k + 1))

lemma ceilLog10_pos {m : Nat} (hm : 2 ≤ m) : 1 ≤ ceilLog10 m := by
  have h1 : ¬ m ≤ 10 ^ 0 := by simpa using by omega
  simp only [ceilLog10, clog10Aux, h1, if_false]
  exact clog10Aux_ge m m 1

lemma ceilLog10_one : ceilLog10 1 = 0 := by decide

lemma pyRange_length (a b : Int) : (pyRange a b).length = (b - a).toNat := by
  rw [pyRange, List.length_map, List.length_range]

lemma rangeItems_length (y f l : Int) :
    (rangeItems y f l).length = (l + 1 - f).toNat := by
  simp only [rangeItems, List.length_map, pyRange_length]

lemma parse_cfg_of_split (cfg : String) (p0 p1 p2 : List Char)
    (hs : splitOnChar ':' cfg.data = [p0, p1, p2]) :
    parse_cfg cfg =
      (pyFieldInt p0 0).bind (fun year =>
        (pyFieldInt p1 1).bind (fun first =>
          (resolveLast first p2).bind (fun last =>
            some (false, year, first, last)))) := by
  unfold parse_cfg
  rw [hs]
  rfl

lemma resolveLast_x (f n : Int) (p2 : List Char)
    (hx : p2.head? = some 'x') (hn : pyIntChars (p2.drop 1) = some n) :
    resolveLast f p2 = some (f + ROWS * n - 1) := by
  cases p2 with
  | nil => simp at hx
  | cons c rest =>
    simp only [List.head?_cons, Option.some.injEq] at hx
    subst hx
    simp only [List.drop_succ_cons, List.drop_zero] at hn
    simp [resolveLast, hn]

lemma parse_cfg_x (cfg : String) (p0 p1 p2 : List Char) (y f n : Int)
    (hs : splitOnChar ':' cfg.data = [p0, p1, p2])
    (hy : pyFieldInt p0 0 = some y) (hf : pyFieldInt p1 1 = some f)
    (hx : p2.head? = some 'x')
    (hn : pyIntChars (p2.drop 1) = some n) :
    parse_cfg cfg = some (false, y, f, f + ROWS * n - 1) ∧
    cfgItems cfg = some ((pyRange f (f + ROWS * n)).map (fun x => (y, x))) := by
  have hp : parse_cfg cfg = some (false, y, f, f + ROWS * n - 1) := by
    rw [parse_cfg_of_split cfg p0 p1 p2 hs]
    simp [hy, hf, resolveLast_x f n p2 hx hn]
  refine ⟨hp, ?_⟩
  have harith : f + ROWS * n - 1 + 1 = f + ROWS * n := by ring
  simp [cfgItems, hp, rangeItems, harith]

lemma parse_cfg_lastEmpty (cfg : String) (p0 p1 : List Char) (y f : Int)
    (hs : splitOnChar ':' cfg.data = [p0, p1, []])
    (hy : pyFieldInt p0 0 = some y) (hf : pyFieldInt p1 1 = some f) :
    parse_cfg cfg = some (false, y, f, f + ROWS * COLS - 1) ∧
    cfgItems cfg = some ((pyRange f (f + ROWS * COLS)).map (fun x => (y, x))) := by
  have hp : parse_cfg cfg = some (false, y, f, f + ROWS * COLS - 1) := by
    rw [parse_cfg_of_split cfg p0 p1 [] hs]
    simp [hy, hf, resolveLast]
  refine ⟨hp, ?_⟩
  have harith : f + ROWS * COLS - 1 + 1 = f + ROWS * COLS := by ring
  simp [cfgItems, hp, rangeItems, harith]

/-- C1 counterexample: the claim says a malformed spec contributes zero
LabelItems, but the substituted degenerate range (0, 0, 0) is expanded by
main over range(0, 0 + 1), which contributes exactly one item (0, 0): for
the two-field config a:b the contribution is [(0, 0)], not []. -/
theorem C1_counterexample :
    cfgItems "a:b" = some [((0 : Int), (0 : Int))] ∧
    cfgItems "a:b" ≠ some [] := by
  decide

/-- C1 (amended): for every range-spec string whose split on the colon
yields a field count other than 3, the parser reports a diagnostic and
substitutes the degenerate range (0, 0, 0); that range contributes exactly
one degenerate LabelItem (0, 0) to the expanded sequence (not zero), and
processing continues with the remaining specs. -/
theorem C1_wrongFieldCount (cfg : String) (rest : List String)
    (h : (splitOnChar ':' cfg.data).length ≠ 3) :
    parse_cfg cfg = some (true, 0, 0, 0) ∧
    cfgItems cfg = some [((0 : Int), (0 : Int))] ∧
    buildData (cfg :: rest) =
      (buildData rest).map (fun d => ((0 : Int), (0 : Int)) :: d) := by
  have hp : parse_cfg cfg = some (true, 0, 0, 0) := by
    unfold parse_cfg
    rcases hl : splitOnChar ':' cfg.data with _ | ⟨a, _ | ⟨b, _ | ⟨c, _ | ⟨d, t⟩⟩⟩⟩
    · rfl
    · rfl
    · rfl
    · rw [hl] at h; simp at h
    · rfl
  have hi : cfgItems cfg = some [((0 : Int), (0 : Int))] := by
    have h00 : rangeItems 0 0 0 = [((0 : Int), (0 : Int))] := by decide
    simp [cfgItems, hp, h00]
  refine ⟨hp, hi, ?_⟩
  cases hr : buildData rest with
  | none => simp [buildData, hi, hr]
  | some d => simp [buildData, hi, hr]

/-- C1 witness: the two-field config a:b has field count 2, yields the
diagnostic and the degenerate (0, 0, 0) range, contributes the single item
(0, 0), and the following spec 23:1:3 is still processed. -/
theorem C1_witness :
    parse_cfg "a:b" = some (true, 0, 0, 0) ∧
    cfgItems "a:b" = some [((0 : Int), (0 : Int))] ∧
    buildData ["a:b", "23:1:3"] =
      (buildData ["23:1:3"]).map (fun d => ((0 : Int), (0 : Int)) :: d) :=
  C1_wrongFieldCount "a:b" ["23:1:3"] (by decide)

/-- C2: for every config whose three fields resolve year to y and first to
f and whose last field starts with the literal x followed by integer text
for n, parse_cfg resolves last to f + 16 * n - 1 (rows-per-sheet is 16),
and the config expands to the items (y, f), ..., (y, f + 16 * n - 1). -/
theorem C2_xBlockCount (cfg : String) (p0 p1 p2 : List Char) (y f n : Int)
    (hs : splitOnChar ':' cfg.data = [p0, p1, p2])
    (hy : pyFieldInt p0 0 = some y) (hf : pyFieldInt p1 1 = some f)
    (hx : p2.head? = some 'x') (hn : pyIntChars (p2.drop 1) = some n) :
    parse_cfg cfg = some (false, y, f, f + 16 * n - 1) ∧
    cfgItems cfg = some ((pyRange f (f + 16 * n)).map (fun x => (y, x))) := by
  have h := parse_cfg_x cfg p0 p1 p2 y f n hs hy hf hx hn
  simpa [ROWS] using h

/-- C2 witness: the config 5:10:x2 resolves to (year 5, first 10, last 41)
and expands to the 32 items (5, 10) through (5, 41). -/
theorem C2_witness :
    parse_cfg "5:10:x2" = some (false, 5, 10, 41) ∧
    cfgItems "5:10:x2" =
      some [((5 : Int), (10 : Int)), (5, 11), (5, 12), (5, 13), (5, 14),
            (5, 15), (5, 16), (5, 17), (5, 18), (5, 19), (5, 20), (5, 21),
            (5, 22), (5, 23), (5, 24), (5, 25), (5, 26), (5, 27), (5, 28),
            (5, 29), (5, 30), (5, 31), (5, 32), (5, 33), (5, 34), (5, 35),
            (5, 36), (5, 37), (5, 38), (5, 39), (5, 40), (5, 41)] := by
  have h := C2_xBlockCount "5:10:x2" ['5'] ['1', '0'] ['x', '2'] 5 10 2
    (by decide) (by decide) (by decide) (by decide) (by decide)
  exact ⟨h.1.trans (by decide), h.2.trans (by decide)⟩

/-- C3: for every config whose three fields resolve year to y and first to
f and whose last field is empty, parse_cfg resolves last to f + 80 - 1
where 80 = CELLS = ROWS * COLS is the capacity of one page, and the config
expands to the items (y, f), ..., (y, f + 79). -/
theorem C3_emptyLast (cfg : String) (p0 p1 : List Char) (y f : Int)
    (hs : splitOnChar ':' cfg.data = [p0, p1, []])
    (hy : pyFieldInt p0 0 = some y) (hf : pyFieldInt p1 1 = some f) :
    CELLS = 80 ∧
    parse_cfg cfg = some (false, y, f, f + 80 - 1) ∧
    cfgItems cfg = some ((pyRange f (f + 80)).map (fun x => (y, x))) := by
  have h := parse_cfg_lastEmpty cfg p0 p1 y f hs hy hf
  refine ⟨by decide, ?_, ?_⟩
  · simpa [ROWS, COLS] using h.1
  · simpa [ROWS, COLS] using h.2

/-- C3 witness: the config 0:1: resolves to (year 0, first 1, last 80) and
expands to 80 items running from (0, 1) to (0, 80). -/
theorem C3_witness :
    parse_cfg "0:1:" = some (false, 0, 1, 80) ∧
    cfgItems "0:1:" = some ((pyRange 1 81).map (fun x => ((0 : Int), x))) ∧
    ((pyRange 1 81).map (fun x => ((0 : Int), x))).length = 80 ∧
    ((pyRange 1 81).map (fun x => ((0 : Int), x))).head? = some (0, 1) ∧
    ((pyRange 1 81).map (fun x => ((0 : Int), x))).getLast? = some (0, 80) := by
  have h := C3_emptyLast "0:1:" ['0'] ['1'] 0 1 (by decide) (by decide) (by decide)
  exact ⟨h.2.1.trans (by decide), h.2.2.trans (by decide), by decide, by decide, by decide⟩

/-- C4 counterexample: the claim says the x-shorthand xN expands to
N * 80 items (N full pages); for the config 0:1:x1 the expansion has 16
items, one column, not 80. -/
theorem C4_counterexample :
    (cfgItems "0:1:x1").map List.length = some 16 ∧
    (cfgItems "0:1:x1").map List.length ≠ some 80 := by
  decide

/-- C4 (amended): the xN block-count shorthand in the last field means N
full columns of ROWS = 16 labels each, so for a config year:first:xN with
a non-negative block count n the expansion comprises 16 * n items (not
n * 80). -/
theorem C4_xMeansColumns (cfg : String) (p0 p1 p2 : List Char) (y f n : Int)
    (hs : splitOnChar ':' cfg.data = [p0, p1, p2])
    (hy : pyFieldInt p0 0 = some y) (hf : pyFieldInt p1 1 = some f)
    (hx : p2.head? = some 'x') (hn : pyIntChars (p2.drop 1) = some n)
    (hn0 : 0 ≤ n) :
    (cfgItems cfg).map List.length = some (16 * n.toNat) := by
  have h := parse_cfg_x cfg p0 p1 p2 y f n hs hy hf hx hn
  rw [h.2]
  simp [pyRange_length, ROWS]
  omega

/-- C4 witness: the config 2:5:x3 expands to 16 * 3 = 48 items. -/
theorem C4_witness :
    (cfgItems "2:5:x3").map List.length = some 48 := by
  have h := C4_xMeansColumns "2:5:x3" ['2'] ['5'] ['x', '3'] 2 5 3
    (by decide) (by decide) (by decide) (by decide) (by decide) (by decide)
  exact h.trans (by decide)

/-- C5: for every year and serial, the zeroFill component of values is a
string of exactly max(0, 4 - ceil(log10(serial + 1))) zero characters, the
formula of specZeroFillLen; in particular serial 9 yields three zeros and
serial 10 yields two. -/
theorem C5_zeroFill (year sn : Nat) :
    ((values year sn).2.2.1).data = List.replicate (specZeroFillLen sn).toNat '0' ∧
    (values year 9).2.2.1 = "000" ∧ (values year 10).2.2.1 = "00" := by
  have hmax : ∀ c : Nat, (max 0 (4 - (c : Int))).toNat = 4 - c := by
    intro c
    rcases Nat.le_total c 4 with h | h
    · rw [max_eq_right (by omega : (0 : Int) ≤ 4 - (c : Int))]
      omega
    · rw [max_eq_left (by omega : (4 - (c : Int)) ≤ 0)]
      omega
  refine ⟨?_, rfl, rfl⟩
  simp [values, specZeroFillLen, hmax]

/-- C6: values on (year 1, serial 7) returns idPadded 0007, zeroFill of
three zeros, code ASN010007 (literal ASN, two-digit year 01, then 0007),
and the color at index 1 of the 8-entry palette. -/
theorem C6_valuesExample :
    values 1 7 = ("0007", "ASN010007", "000", "#cec323") ∧
    colors.get? 1 = some "#cec323" := by
  decide

/-- C7: a resolved range with last < first expands to no LabelItems at
all, and the parser performs no validation of the order: the inverted
config 0:5:3 parses without a diagnostic and contributes the empty list. -/
theorem C7_invertedRange (y f l : Int) (h : l < f) :
    rangeItems y f l = [] ∧
    parse_cfg "0:5:3" = some (false, 0, 5, 3) ∧
    cfgItems "0:5:3" = some [] := by
  have h0 : (l + 1 - f).toNat = 0 := by omega
  refine ⟨?_, by decide, by decide⟩
  simp [rangeItems, pyRange, h0]

/-- C7 witness: the inverted range (0, 5, 3) expands to zero items. -/
theorem C7_witness :
    ((3 : Int) < 5) ∧ rangeItems 0 5 3 = [] :=
  ⟨by decide, (C7_invertedRange 0 5 3 (by decide)).1⟩

/-- C8: in a 3-field config in which a non-empty field (year, first, an
explicit last, or the digits after the leading x) is not valid integer
text, int fails; the failure is not substituted with the degenerate range
and terminates the run, however many specs follow. -/
theorem C8_intFailure (cfg : String) (p0 p1 p2 : List Char)
    (hs : splitOnChar ':' cfg.data = [p0, p1, p2])
    (hfail :
      (p0 ≠ [] ∧ pyIntChars p0 = none) ∨
      (p1 ≠ [] ∧ pyIntChars p1 = none) ∨
      (p2 ≠ [] ∧ p2.head? ≠ some 'x' ∧ pyIntChars p2 = none) ∨
      (p2.head? = some 'x' ∧ pyIntChars (p2.drop 1) = none)) :
    parse_cfg cfg = none ∧
    parse_cfg cfg ≠ some (true, 0, 0, 0) ∧
    ∀ rest, buildData (cfg :: rest) = none := by
  have hp : parse_cfg cfg = none := by
    rw [parse_cfg_of_split cfg p0 p1 p2 hs]
    rcases hfail with ⟨hne, hn⟩ | ⟨hne, hn⟩ | ⟨hne, hx, hn⟩ | ⟨hx, hn⟩
    · simp [pyFieldInt, hne, hn]
    · cases hy : pyFieldInt p0 0 <;> simp [pyFieldInt, hne, hn, hy]
    · have hr : ∀ fv : Int, resolveLast fv p2 = none := by
        intro fv
        simp [resolveLast, hne, hx, hn]
      cases hy : pyFieldInt p0 0 <;> cases hf : pyFieldInt p1 1 <;> simp [hy, hf, hr]
    · have hr : ∀ fv : Int, resolveLast fv p2 = none := by
        intro fv
        cases p2 with
        | nil => simp at hx
        | cons c cs =>
          simp only [List.head?_cons, Option.some.injEq] at hx
          subst hx
          simp only [List.drop_succ_cons, List.drop_zero] at hn
          simp [resolveLast, hn]
      cases hy : pyFieldInt p0 0 <;> cases hf : pyFieldInt p1 1 <;> simp [hy, hf, hr]
  refine ⟨hp, by simp [hp], ?_⟩
  intro rest
  simp [buildData, cfgItems, hp]

/-- C8 witness: the config a:1:2 has a non-numeric year field, so parsing
fails and the following spec is never reached. -/
theorem C8_witness :
    parse_cfg "a:1:2" = none ∧ buildData ["a:1:2", "1:2:3"] = none := by
  have h := C8_intFailure "a:1:2" ['a'] ['1'] ['2'] (by decide)
    (Or.inl ⟨by decide, by decide⟩)
  exact ⟨h.1, h.2.2 ["1:2:3"]⟩

/-- C9 counterexample: the claim says the default output name produces the
double suffix output.pdf.pdf, but the default already ends in .pdf, so
main keeps it unchanged. -/
theorem C9_counterexample :
    output_pdf "output.pdf" = "output.pdf" ∧
    output_pdf "output.pdf" ≠ "output.pdf.pdf" := by
  decide

/-- C9 (amended): with the default output value the produced filename is
output.pdf itself, with a single suffix; in general a .pdf extension is
appended exactly when the given name does not already end in .pdf. -/
theorem C9_pdfSuffix :
    output_pdf "output.pdf" = "output.pdf" ∧
    ∀ s : String,
      (List.isSuffixOf ".pdf".data s.data = false → output_pdf s = s ++ ".pdf") ∧
      (List.isSuffixOf ".pdf".data s.data = true → output_pdf s = s) := by
  refine ⟨by decide, ?_⟩
  intro s
  constructor <;> intro h <;> simp [output_pdf, h]

/-- C9 witness: a name without the extension gets .pdf appended and a name
already carrying it is kept. -/
theorem C9_witness :
    output_pdf "foo" = "foo" ++ ".pdf" ∧ output_pdf "a.pdf" = "a.pdf" :=
  ⟨(C9_pdfSuffix.2 "foo").1 (by decide), (C9_pdfSuffix.2 "a.pdf").2 (by decide)⟩

/-- C10: values is defined at serial 0 (the serial the degenerate
(0, 0, 0) range produces): for every year it returns idPadded 0000 and a
zeroFill of four zeros, one more filler zero than any positive serial
ever gets. -/
theorem C10_serialZero :
    (∀ year : Nat, (values year 0).1 = "0000" ∧ (values year 0).2.2.1 = "0000") ∧
    (∀ year sn : Nat, 1 ≤ sn → ((values year sn).2.2.1).length ≤ 3) := by
  constructor
  · intro year
    exact ⟨rfl, rfl⟩
  · intro year sn h
    have hc : 1 ≤ ceilLog10 (sn + 1) := ceilLog10_pos (by omega)
    have hz : (values year sn).2.2.1 =
        String.mk (List.replicate (4 - ceilLog10 (sn + 1)) '0') := rfl
    rw [hz]
    simp [String.length]
    omega

/-- C10 witness: at year 3, serial 0 the derived id and filler are 0000,
and the positive serial 1 gets a filler of at most three zeros. -/
theorem C10_witness :
    (1 : Nat) ≤ 1 ∧ (values 3 0).1 = "0000" ∧ (values 3 0).2.2.1 = "0000" ∧
    ((values 3 1).2.2.1).length ≤ 3 :=
  ⟨by decide, (C10_serialZero.1 3).1, (C10_serialZero.1 3).2,
   C10_serialZero.2 3 1 (by decide)⟩

end GenAsn
